import Mathlib

/-!
Shallow embedding of `src/source/image_source.js` (the `ImageSource` class of
mapbox-gl-js) together with the external collaborators it calls, and proofs of
the specification claims about it.

Numbers are modelled exactly: geographic and tile-space coordinates are `ℚ`,
tile indices are `ℤ`.  The host projection (`map.transform.locationCoordinate`
composed with `zoomTo(0)`) and the best-fit-center utility
(`util.getCoordinatesCenter`) are external collaborators that live outside the
provided source; the operations that use them are parameterised over them, and
concrete model instances (marked `Modelled from the spec:`) are supplied for
evaluation.
-/

namespace ImageSourceSpec

/-- Modelled from the spec: `EXTENT` (`src/data/extent.js`, not under the
provided sources) is the fixed per-tile coordinate range of tile space. -/
def EXTENT : ℤ := 8192

/-- JavaScript `Math.round` on an exact rational: round to nearest, halves
toward positive infinity (`⌊q + 1/2⌋`), as opposed to truncation. -/
def jsRound (q : ℚ) : ℤ := ⌊q + 1 / 2⌋

/-- Modelled from the spec: `Coordinate` (`src/geo/coordinate.js`, not under
the provided sources): a tile-space position `(column, row)` at a zoom. -/
structure Coordinate where
  column : ℚ
  row : ℚ
  zoom : ℤ
deriving DecidableEq, Repr

/-- `2^z` as a rational, for an integer (possibly negative) zoom delta. -/
def pow2 (z : ℤ) : ℚ :=
  if 0 ≤ z then ((2 ^ z.toNat : ℕ) : ℚ) else 1 / ((2 ^ (-z).toNat : ℕ) : ℚ)

/-- Modelled from the spec: `Coordinate.zoomTo` scales column and row by
`2^(zoom − this.zoom)` (re-projection between zoom levels). -/
def Coordinate.zoomTo (c : Coordinate) (z : ℤ) : Coordinate :=
  { column := c.column * pow2 (z - c.zoom)
    row := c.row * pow2 (z - c.zoom)
    zoom := z }

/-- Modelled from the spec: `TileCoord` (`src/source/tile_coord.js`, not under
the provided sources): zoom / column / row plus the world-wrap index `w`. -/
structure TileCoord where
  z : ℤ
  x : ℤ
  y : ℤ
  w : ℤ
deriving DecidableEq, Repr

/-- Modelled from the spec: `TileCoord.prototype.toString` renders `z/x/y`
and omits the wrap index `w`. -/
def TileCoord.toStr (c : TileCoord) : String :=
  toString c.z ++ "/" ++ toString c.x ++ "/" ++ toString c.y

/-- Modelled from the spec: the fields of an external `Tile` object that this
source reads or writes (`tile.coord`, `tile.state`, `tile.texture`,
`tile.buckets`).  `state` is the JS string field; textures are ids. -/
structure Tile where
  coord : TileCoord
  state : String
  texture : Option Nat
  buckets : List Nat
deriving DecidableEq, Repr

/-- One vertex of the raster-bounds quad: tile-space position `(x, y)` and
texture coordinate `(tx, ty)`.  Modelled from the spec: `RasterBoundsArray`
(`src/data/raster_bounds_array.js`) is a growable vertex array and
`emplaceBack` appends one vertex. -/
structure BoundsVertex where
  x : ℤ
  y : ℤ
  tx : ℤ
  ty : ℤ
deriving DecidableEq, Repr

/-- The kind of raster handed to `_prepareImage` (the JS code distinguishes
these by `instanceof` checks against `window` classes). -/
inductive RasterKind where
  | htmlImage
  | htmlVideo
  | htmlCanvas
  | imageData
deriving DecidableEq, Repr

/-- `image instanceof HTMLVideoElement || image instanceof ImageData ||
image instanceof HTMLCanvasElement` — the streaming raster types. -/
def RasterKind.isStreaming : RasterKind → Bool
  | .htmlVideo => true
  | .imageData => true
  | .htmlCanvas => true
  | .htmlImage => false

/-- The four geographic corner coordinates, each a `(lng, lat)` pair, ordered
top-left, top-right, bottom-right, bottom-left. -/
structure Corners where
  c0 : ℚ × ℚ
  c1 : ℚ × ℚ
  c2 : ℚ × ℚ
  c3 : ℚ × ℚ
deriving DecidableEq, Repr

/-- A JS value appearing in a serialized source object. -/
inductive JSValue where
  | str (s : String)
  | corners (c : Corners)
  | undef
deriving DecidableEq, Repr

/-- Field lookup on a JS plain object modelled as a key/value list. -/
def lookupKey (o : List (String × JSValue)) (k : String) : Option JSValue :=
  (o.find? (fun p => p.1 = k)).map (fun p => p.2)

/-- GL enum `TEXTURE_WRAP_S`. -/
def GL_TEXTURE_WRAP_S : Nat := 10242
/-- GL enum `TEXTURE_WRAP_T`. -/
def GL_TEXTURE_WRAP_T : Nat := 10243
/-- GL enum `TEXTURE_MIN_FILTER`. -/
def GL_TEXTURE_MIN_FILTER : Nat := 10241
/-- GL enum `TEXTURE_MAG_FILTER`. -/
def GL_TEXTURE_MAG_FILTER : Nat := 10240
/-- GL enum `CLAMP_TO_EDGE`. -/
def GL_CLAMP_TO_EDGE : Nat := 33071
/-- GL enum `LINEAR`. -/
def GL_LINEAR : Nat := 9729

/-- One observable GPU operation issued by the source.  Modelled from the
spec: the graphics API calls (`gl.*`, `VertexBuffer`) are external; we record
them in an operation log. -/
inductive GLOp where
  | createTexture (t : Nat)
  | bindTexture (t : Nat)
  | texParameteri (pname param : Nat)
  | texImage2D
  | texSubImage2D
  | createBuffer (b : Nat)
  | destroyBuffer (b : Nat)
deriving DecidableEq, Repr

/-- State of the (modelled) GL context: a fresh-id counter and the log of
operations issued so far. -/
structure GLState where
  nextId : Nat
  log : List GLOp
deriving DecidableEq, Repr

/-- The options object passed to the `ImageSource` constructor: the fields it
reads are `url` and `coordinates`. -/
structure ImageOptions where
  url : Option String
  coordinates : Corners
deriving DecidableEq, Repr

instance : Inhabited Corners := ⟨⟨(0, 0), (0, 0), (0, 0), (0, 0)⟩⟩

/-- The mutable fields of an `ImageSource` instance (lines 52–71 of
`image_source.js`).  `tiles` is the claim table, an object keyed by the
stringified wrap index, modelled as an association list keyed by the wrap
index; `image` records whether the raster has loaded and of which kind;
`texture` and `boundsBuffer` hold the GL resource ids. -/
structure ImageSource where
  id : String
  options : ImageOptions
  url : Option String
  coordinates : Corners
  type : String
  minzoom : ℤ
  maxzoom : ℤ
  tileSize : ℕ
  tiles : List (ℤ × Tile)
  image : Option RasterKind
  centerCoord : Option Coordinate
  coord : Option TileCoord
  boundsArray : Option (List BoundsVertex)
  boundsBuffer : Option Nat
  boundsVAO : Bool
  textureLoaded : Bool
  texture : Option Nat
deriving DecidableEq, Repr

/-- The `ImageSource` constructor (lines 73–89): store the options, copy
`options.coordinates`, set `type`, the initial wide zoom bounds, the tile
size, the empty claim table, and `textureLoaded = false`. -/
def ImageSource.make (id : String) (options : ImageOptions) : ImageSource :=
  { id := id
    options := options
    url := none
    coordinates := options.coordinates
    type := "image"
    minzoom := 0
    maxzoom := 22
    tileSize := 512
    tiles := []
    image := none
    centerCoord := none
    coord := none
    boundsArray := none
    boundsBuffer := none
    boundsVAO := false
    textureLoaded := false
    texture := none }

/-- `map.transform.locationCoordinate(LngLat.convert(coord)).zoomTo(0)`
(line 138): project one geographic corner into zoom-0 tile space.  The
projection itself is an external collaborator, passed in as `proj`. -/
def cornerZ0 (proj : ℚ × ℚ → ℚ × ℚ) (c : ℚ × ℚ) : Coordinate :=
  { column := (proj c).1, row := (proj c).2, zoom := 0 }

/-- The list `cornerZ0Coords` (lines 137–139). -/
def cornersZ0List (proj : ℚ × ℚ → ℚ × ℚ) (k : Corners) : List Coordinate :=
  [cornerZ0 proj k.c0, cornerZ0 proj k.c1, cornerZ0 proj k.c2, cornerZ0 proj k.c3]

/-- The anchor tile coordinate (lines 143–148): the best-fit center's
fractional column and row are floored to integers; its zoom is used verbatim;
the wrap index of `this.coord` is 0. -/
def anchorTileCoord (proj : ℚ × ℚ → ℚ × ℚ) (center : List Coordinate → Coordinate)
    (k : Corners) : TileCoord :=
  let c := center (cornersZ0List proj k)
  { z := c.zoom, x := ⌊c.column⌋, y := ⌊c.row⌋, w := 0 }

/-- The mutated `this.centerCoord` (lines 143–147): the best-fit center with
column and row floored in place. -/
def flooredCenter (proj : ℚ × ℚ → ℚ × ℚ) (center : List Coordinate → Coordinate)
    (k : Corners) : Coordinate :=
  let a := anchorTileCoord proj center k
  { column := (a.x : ℚ), row := (a.y : ℚ), zoom := a.z }

/-- One corner's tile-space vertex position (lines 157–162): re-project the
zoom-0 corner to the anchor zoom, subtract the floored center column/row,
scale by `EXTENT`, and `Math.round` each component. -/
def tilePos (proj : ℚ × ℚ → ℚ × ℚ) (center : List Coordinate → Coordinate)
    (k : Corners) (corner : ℚ × ℚ) : ℤ × ℤ :=
  let cc := flooredCenter proj center k
  let zoomedCoord := (cornerZ0 proj corner).zoomTo cc.zoom
  (jsRound ((zoomedCoord.column - cc.column) * (EXTENT : ℚ)),
   jsRound ((zoomedCoord.row - cc.row) * (EXTENT : ℚ)))

/-- The `RasterBoundsArray` built by lines 164–168: four `emplaceBack` calls,
corner 0 with texture coordinate (0,0), corner 1 with (EXTENT,0), corner 3
with (0,EXTENT), corner 2 with (EXTENT,EXTENT). -/
def quadOf (proj : ℚ × ℚ → ℚ × ℚ) (center : List Coordinate → Coordinate)
    (k : Corners) : List BoundsVertex :=
  let t0 := tilePos proj center k k.c0
  let t1 := tilePos proj center k k.c1
  let t2 := tilePos proj center k k.c2
  let t3 := tilePos proj center k k.c3
  [ { x := t0.1, y := t0.2, tx := 0, ty := 0 }
  , { x := t1.1, y := t1.2, tx := EXTENT, ty := 0 }
  , { x := t3.1, y := t3.2, tx := 0, ty := EXTENT }
  , { x := t2.1, y := t2.2, tx := EXTENT, ty := EXTENT } ]

/-- `ImageSource.prototype.setCoordinates` (lines 127–177): store the corners,
recompute the anchor (flooring its column/row), pin `minzoom = maxzoom` to the
anchor zoom, rebuild the bounds array in the fixed diagonal-swap order, and,
if a bounds buffer exists, destroy it and clear the reference.  The texture
fields are untouched. -/
def ImageSource.setCoordinates (proj : ℚ × ℚ → ℚ × ℚ)
    (center : List Coordinate → Coordinate) (s : ImageSource) (g : GLState)
    (coordinates : Corners) : ImageSource × GLState :=
  let a := anchorTileCoord proj center coordinates
  let g' := match s.boundsBuffer with
    | some b => { g with log := g.log ++ [GLOp.destroyBuffer b] }
    | none => g
  ({ s with
      coordinates := coordinates
      centerCoord := some (flooredCenter proj center coordinates)
      coord := some a
      minzoom := a.z
      maxzoom := a.z
      boundsArray := some (quadOf proj center coordinates)
      boundsBuffer := none }, g')

/-- `this.tiles[String(tile.coord.w)] = tile` (line 226): JS object-key
assignment — replace an existing entry for the same wrap index, else add. -/
def insertTile (tiles : List (ℤ × Tile)) (w : ℤ) (tile : Tile) : List (ℤ × Tile) :=
  if tiles.any (fun p => p.1 = w) then
    tiles.map (fun p => if p.1 = w then (w, tile) else p)
  else
    tiles ++ [(w, tile)]

/-- `ImageSource.prototype.loadTile` (lines 218–233): if an anchor exists and
its `toString` equals the requested tile's (`z/x/y`, wrap ignored), register
the tile in the claim table under its wrap index with its buckets cleared and
call back with `null`; otherwise set the tile's state to `errored` and call
back with `null`.  Returns (updated source, updated tile, callback error). -/
def ImageSource.loadTile (s : ImageSource) (tile : Tile) :
    ImageSource × Tile × Option String :=
  match s.coord with
  | some c =>
    if c.toStr = tile.coord.toStr then
      let tile' := { tile with buckets := [] }
      ({ s with tiles := insertTile s.tiles tile.coord.w tile' }, tile', none)
    else
      (s, { tile with state := "errored" }, none)
  | none => (s, { tile with state := "errored" }, none)

/-- Lines 185–187: `if (!this.boundsBuffer) this.boundsBuffer = new
VertexBuffer(gl, this._boundsArray)` — lazily create the vertex buffer. -/
def ensureBuffer (s : ImageSource) (g : GLState) : ImageSource × GLState :=
  match s.boundsBuffer with
  | none =>
    ({ s with boundsBuffer := some g.nextId },
     { nextId := g.nextId + 1, log := g.log ++ [GLOp.createBuffer g.nextId] })
  | some _ => (s, g)

/-- Lines 189–191: lazily create the vertex array object (no GL log entry is
modelled; a VAO is wrapped lazily on first draw). -/
def ensureVAO (s : ImageSource) : ImageSource :=
  if s.boundsVAO then s else { s with boundsVAO := true }

/-- Lines 193–207: create the texture on first use (clamp-to-edge wrap,
linear filtering, full upload), or re-upload in full when `resize` is set, or
update in place when the raster is a streaming kind; a static image past the
first upload does nothing. -/
def ensureTexture (s : ImageSource) (g : GLState) (image : RasterKind)
    (resize : Bool) : ImageSource × GLState :=
  if !s.textureLoaded then
    let t := g.nextId
    ({ s with textureLoaded := true, texture := some t },
     { nextId := g.nextId + 1
       log := g.log ++
         [ GLOp.createTexture t
         , GLOp.bindTexture t
         , GLOp.texParameteri GL_TEXTURE_WRAP_S GL_CLAMP_TO_EDGE
         , GLOp.texParameteri GL_TEXTURE_WRAP_T GL_CLAMP_TO_EDGE
         , GLOp.texParameteri GL_TEXTURE_MIN_FILTER GL_LINEAR
         , GLOp.texParameteri GL_TEXTURE_MAG_FILTER GL_LINEAR
         , GLOp.texImage2D ] })
  else if resize then
    (s, { g with log := g.log ++ [GLOp.texImage2D] })
  else if image.isStreaming then
    (s, { g with log := g.log ++
      [GLOp.bindTexture (s.texture.getD 0), GLOp.texSubImage2D] })
  else
    (s, g)

/-- Lines 209–215: hand the texture to every claimed tile that is not yet
`loaded`, marking it `loaded`; tiles already `loaded` are left untouched. -/
def updateTiles (s : ImageSource) : ImageSource :=
  { s with tiles := s.tiles.map (fun p =>
      if p.2.state ≠ "loaded" then
        (p.1, { p.2 with state := "loaded", texture := s.texture })
      else p) }

/-- `ImageSource.prototype._prepareImage` (lines 184–216). -/
def ImageSource._prepareImage (s : ImageSource) (g : GLState)
    (image : RasterKind) (resize : Bool) : ImageSource × GLState :=
  let sg1 := ensureBuffer s g
  let s2 := ensureVAO sg1.1
  let sg3 := ensureTexture s2 sg1.2 image resize
  (updateTiles sg3.1, sg3.2)

/-- `ImageSource.prototype.prepare` (lines 179–182): no-op when the claim
table is empty or the raster has not loaded; otherwise delegate to
`_prepareImage` with the loaded raster (and no resize flag). -/
def ImageSource.prepare (s : ImageSource) (g : GLState) : ImageSource × GLState :=
  if s.tiles.length = 0 then (s, g)
  else match s.image with
    | none => (s, g)
    | some img => s._prepareImage g img false

/-- Iterate `prepare` n times (the render loop calling into the source). -/
def prepareN : ℕ → ImageSource × GLState → ImageSource × GLState
  | 0, sg => sg
  | n + 1, sg => prepareN n ((ImageSource.prepare sg.1 sg.2))

/-- `ImageSource.prototype.serialize` (lines 235–241): a plain object with
`type: 'image'`, `urls: this.options.url` and `coordinates:
this.coordinates`.  Note the key is `urls`, not `url`. -/
def ImageSource.serialize (s : ImageSource) : List (String × JSValue) :=
  [ ("type", JSValue.str "image")
  , ("urls", match s.options.url with
      | some u => JSValue.str u
      | none => JSValue.undef)
  , ("coordinates", JSValue.corners s.coordinates) ]

/-- Reading a serialized plain object back as constructor options: the
constructor and `load()` access the `url` and `coordinates` fields of the
options object. -/
def optionsOfSerialized (o : List (String × JSValue)) : ImageOptions :=
  { url := match lookupKey o "url" with
      | some (JSValue.str u) => some u
      | _ => none
    coordinates := match lookupKey o "coordinates" with
      | some (JSValue.corners c) => c
      | _ => default }

/-- Count of `createTexture` operations in a GL log. -/
def texCreations (l : List GLOp) : ℕ :=
  (l.filter (fun op => match op with | GLOp.createTexture _ => true | _ => false)).length

/-- Count of full uploads (`texImage2D`) in a GL log. -/
def fullUploads (l : List GLOp) : ℕ :=
  (l.filter (fun op => match op with | GLOp.texImage2D => true | _ => false)).length

/-- Count of partial in-place updates (`texSubImage2D`) in a GL log. -/
def partialUploads (l : List GLOp) : ℕ :=
  (l.filter (fun op => match op with | GLOp.texSubImage2D => true | _ => false)).length

/-- Count of buffer creations in a GL log. -/
def bufferCreations (l : List GLOp) : ℕ :=
  (l.filter (fun op => match op with | GLOp.createBuffer _ => true | _ => false)).length

/-- Modelled from the spec: the host projection utility (geo → zoom-0 tile
space) is an external collaborator; for concrete evaluation we use an affine
longitude/latitude → unit-square map (column grows east, row grows south). -/
def modelProj : ℚ × ℚ → ℚ × ℚ :=
  fun p => ((p.1 + 180) / 360, (90 - p.2) / 360)

/-- Modelled from the spec: `util.getCoordinatesCenter` is an external
collaborator returning one tile-space coordinate with a zoom at which all the
supplied points fit within one tile: the bounding-box midpoint of the zoom-0
points, re-projected (`zoomTo`) to the largest zoom at which the box's larger
side spans at most one tile (`⌊log₂ (1/dMax)⌋`). -/
def modelCenter (coords : List Coordinate) : Coordinate :=
  match coords with
  | [] => { column := 0, row := 0, zoom := 0 }
  | c :: rest =>
    let minX := rest.foldl (fun a d => min a d.column) c.column
    let maxX := rest.foldl (fun a d => max a d.column) c.column
    let minY := rest.foldl (fun a d => min a d.row) c.row
    let maxY := rest.foldl (fun a d => max a d.row) c.row
    let dMax := max (maxX - minX) (maxY - minY)
    Coordinate.zoomTo
      { column := (minX + maxX) / 2, row := (minY + maxY) / 2, zoom := 0 }
      (Int.log 2 (1 / dMax))

/-- Modelled from the spec: "round to the nearest integer coordinate unit
(rounding, not truncation)" — nearest integer with halves rounded up. -/
def roundNearest (q : ℚ) : ℤ := ⌊q + 1 / 2⌋

/-- Modelled from the spec: the anchor selection step in the claim's own
words — "flooring the best-fit center's fractional column and row to integers
to obtain the anchor (using the returned zoom verbatim)". -/
def specSelectAnchor (proj : ℚ × ℚ → ℚ × ℚ) (center : List Coordinate → Coordinate)
    (k : Corners) : TileCoord :=
  let c := center (cornersZ0List proj k)
  { z := c.zoom, x := ⌊c.column⌋, y := ⌊c.row⌋, w := 0 }

/-- Modelled from the spec: the vertex arithmetic in the claim's own words —
"for each zoom-0-projected corner, reprojecting it to the anchor's zoom,
subtracting the anchor's integer column/row, multiplying by EXTENT, and
rounding to the nearest integer". -/
def specVertexPos (proj : ℚ × ℚ → ℚ × ℚ) (center : List Coordinate → Coordinate)
    (k : Corners) (corner : ℚ × ℚ) : ℤ × ℤ :=
  let a := specSelectAnchor proj center k
  let z0 := cornerZ0 proj corner
  (roundNearest ((z0.column * pow2 a.z - (a.x : ℚ)) * (EXTENT : ℚ)),
   roundNearest ((z0.row * pow2 a.z - (a.y : ℚ)) * (EXTENT : ℚ)))

/-- The corner set named by the spec's test scenario:
`[[-76.54,39.18],[-76.52,39.18],[-76.52,39.17],[-76.54,39.17]]`. -/
def claimCorners : Corners :=
  { c0 := (-(7654 / 100), 3918 / 100)
  , c1 := (-(7652 / 100), 3918 / 100)
  , c2 := (-(7652 / 100), 3917 / 100)
  , c3 := (-(7654 / 100), 3917 / 100) }

/-- A fresh GL context for concrete scenarios. -/
def g0 : GLState := { nextId := 0, log := [] }

/-- The spec's `loadTile` scenario: a tile requesting the anchor coordinate
(z=5, x=10, y=12) at wrap 0. -/
def tileA : Tile :=
  { coord := { z := 5, x := 10, y := 12, w := 0 }
  , state := "loading", texture := none, buckets := [3] }

/-- The spec's `loadTile` scenario: a tile requesting (z=5, x=10, y=13),
which does not match the anchor. -/
def tileB : Tile :=
  { coord := { z := 5, x := 10, y := 13, w := 0 }
  , state := "loading", texture := none, buckets := [] }

/-- Concrete constructor options with a url and the spec's corners. -/
def exOptions : ImageOptions :=
  { url := some "https://example.com/image.png", coordinates := claimCorners }

/-- A freshly constructed source. -/
def exBase : ImageSource := ImageSource.make "img" exOptions

/-- A source whose anchor is the spec scenario's (5, 10, 12). -/
def exAnchored : ImageSource :=
  { exBase with coord := some { z := 5, x := 10, y := 12, w := 0 } }

/-- A source ready for `prepare`: loaded raster, one claimed tile, no GPU
resources yet. -/
def exPrepared : ImageSource :=
  { exAnchored with image := some RasterKind.htmlImage, tiles := [(0, tileA)] }

/-- A source that already owns a bounds buffer (id 7). -/
def exWithBuffer : ImageSource := { exBase with boundsBuffer := some 7 }

/-- The freshly constructed source after its first `setCoordinates` run (as
`load`/`_finishLoading` triggers on a loaded raster). -/
def exSet : ImageSource :=
  (exBase.setCoordinates modelProj modelCenter g0 exBase.coordinates).1

/-- The source reconstructed from `exSet`'s serialized output, as the claim's
round-trip prescribes: the serialized plain object is used as the constructor
options. -/
def exCopy : ImageSource :=
  ImageSource.make "copy" (optionsOfSerialized exSet.serialize)

theorem texCreations_append (l1 l2 : List GLOp) :
    texCreations (l1 ++ l2) = texCreations l1 + texCreations l2 := by
  simp [texCreations]

theorem fullUploads_append (l1 l2 : List GLOp) :
    fullUploads (l1 ++ l2) = fullUploads l1 + fullUploads l2 := by
  simp [fullUploads]

theorem partialUploads_append (l1 l2 : List GLOp) :
    partialUploads (l1 ++ l2) = partialUploads l1 + partialUploads l2 := by
  simp [partialUploads]

theorem bufferCreations_append (l1 l2 : List GLOp) :
    bufferCreations (l1 ++ l2) = bufferCreations l1 + bufferCreations l2 := by
  simp [bufferCreations]

theorem ensureBuffer_fields (s : ImageSource) (g : GLState) :
    (ensureBuffer s g).1.tiles = s.tiles ∧
    (ensureBuffer s g).1.textureLoaded = s.textureLoaded ∧
    (ensureBuffer s g).1.texture = s.texture ∧
    (ensureBuffer s g).1.minzoom = s.minzoom ∧
    (ensureBuffer s g).1.maxzoom = s.maxzoom ∧
    (ensureBuffer s g).1.coord = s.coord ∧
    texCreations (ensureBuffer s g).2.log = texCreations g.log ∧
    fullUploads (ensureBuffer s g).2.log = fullUploads g.log ∧
    partialUploads (ensureBuffer s g).2.log = partialUploads g.log := by
  cases h : s.boundsBuffer <;>
    simp [ensureBuffer, h, texCreations, fullUploads, partialUploads]

theorem ensureVAO_fields (s : ImageSource) :
    (ensureVAO s).tiles = s.tiles ∧
    (ensureVAO s).textureLoaded = s.textureLoaded ∧
    (ensureVAO s).texture = s.texture ∧
    (ensureVAO s).minzoom = s.minzoom ∧
    (ensureVAO s).maxzoom = s.maxzoom ∧
    (ensureVAO s).coord = s.coord ∧
    (ensureVAO s).boundsBuffer = s.boundsBuffer := by
  by_cases h : s.boundsVAO <;> simp [ensureVAO, h]

theorem ensureTexture_fields (s : ImageSource) (g : GLState) (img : RasterKind)
    (r : Bool) :
    (ensureTexture s g img r).1.tiles = s.tiles ∧
    (ensureTexture s g img r).1.minzoom = s.minzoom ∧
    (ensureTexture s g img r).1.maxzoom = s.maxzoom ∧
    (ensureTexture s g img r).1.coord = s.coord ∧
    (ensureTexture s g img r).1.boundsBuffer = s.boundsBuffer ∧
    (ensureTexture s g img r).1.textureLoaded = true := by
  by_cases h : s.textureLoaded <;> cases r <;> cases hs : img.isStreaming <;>
    simp [ensureTexture, h, hs]

theorem prepareImage_geom (s : ImageSource) (g : GLState) (img : RasterKind)
    (r : Bool) :
    (s._prepareImage g img r).1.minzoom = s.minzoom ∧
    (s._prepareImage g img r).1.maxzoom = s.maxzoom ∧
    (s._prepareImage g img r).1.coord = s.coord := by
  rcases hb : s.boundsBuffer with _ | b <;> by_cases hv : s.boundsVAO <;>
    by_cases ht : s.textureLoaded <;> cases r <;> cases hs : img.isStreaming <;>
    simp [ImageSource._prepareImage, ensureBuffer, ensureVAO, ensureTexture,
      updateTiles, hb, hv, ht, hs]

theorem prepare_geom (s : ImageSource) (g : GLState) :
    (s.prepare g).1.minzoom = s.minzoom ∧
    (s.prepare g).1.maxzoom = s.maxzoom ∧
    (s.prepare g).1.coord = s.coord := by
  by_cases h : s.tiles.length = 0
  · simp [ImageSource.prepare, h]
  · cases hi : s.image <;> simp [ImageSource.prepare, h, hi, prepareImage_geom]

theorem loadTile_source_fields (s : ImageSource) (t : Tile) :
    (s.loadTile t).1.minzoom = s.minzoom ∧
    (s.loadTile t).1.maxzoom = s.maxzoom ∧
    (s.loadTile t).1.coord = s.coord := by
  rcases hc : s.coord with _ | c
  · simp [ImageSource.loadTile, hc]
  · by_cases he : c.toStr = t.coord.toStr <;> simp [ImageSource.loadTile, hc, he]

theorem prepareImage_counts_loaded (s : ImageSource) (g : GLState)
    (img : RasterKind) (r : Bool) (h : s.textureLoaded = true) :
    texCreations (s._prepareImage g img r).2.log = texCreations g.log ∧
    fullUploads (s._prepareImage g img r).2.log =
      fullUploads g.log + (if r then 1 else 0) ∧
    partialUploads (s._prepareImage g img r).2.log =
      partialUploads g.log + (if r = false ∧ img.isStreaming = true then 1 else 0) ∧
    (s._prepareImage g img r).1.textureLoaded = true := by
  rcases hb : s.boundsBuffer with _ | b <;> by_cases hv : s.boundsVAO <;>
    cases r <;> cases hs : img.isStreaming <;>
    simp [ImageSource._prepareImage, ensureBuffer, ensureVAO, ensureTexture,
      updateTiles, hb, hv, h, hs, texCreations, fullUploads, partialUploads]

theorem prepare_counts_loaded (s : ImageSource) (g : GLState)
    (h : s.textureLoaded = true) :
    texCreations (s.prepare g).2.log = texCreations g.log ∧
    (s.prepare g).1.textureLoaded = true := by
  by_cases ht : s.tiles.length = 0
  · simp [ImageSource.prepare, ht, h]
  · cases hi : s.image
    · simp [ImageSource.prepare, ht, hi, h]
    · rename_i img
      have hc := prepareImage_counts_loaded s g img false h
      simpa [ImageSource.prepare, ht, hi] using ⟨hc.1, hc.2.2.2⟩

theorem prepareN_counts_loaded (n : ℕ) (s : ImageSource) (g : GLState)
    (h : s.textureLoaded = true) :
    texCreations (prepareN n (s, g)).2.log = texCreations g.log ∧
    (prepareN n (s, g)).1.textureLoaded = true := by
  induction n generalizing s g with
  | zero => exact ⟨rfl, h⟩
  | succ n ih =>
    have hp := prepare_counts_loaded s g h
    have := ih (s.prepare g).1 (s.prepare g).2 hp.2
    simpa [prepareN, hp.1] using this

theorem prepareImage_tiles_map (s : ImageSource) (g : GLState) (img : RasterKind)
    (r : Bool) :
    (s._prepareImage g img r).1.tiles = s.tiles.map (fun p =>
      if p.2.state ≠ "loaded"
      then (p.1,
        { p.2 with
            state := "loaded"
            texture := (s._prepareImage g img r).1.texture })
      else p) := by
  have h1 := ensureBuffer_fields s g
  have h2 := ensureVAO_fields (ensureBuffer s g).1
  have h3 := ensureTexture_fields (ensureVAO (ensureBuffer s g).1)
    (ensureBuffer s g).2 img r
  simp only [ImageSource._prepareImage, updateTiles]
  rw [h3.1, h2.1, h1.1]

theorem prepareImage_first_log (s : ImageSource) (g : GLState) (img : RasterKind)
    (r : Bool) (h : s.textureLoaded = false) :
    (s._prepareImage g img r).1.textureLoaded = true ∧
    ∃ t : Nat, (s._prepareImage g img r).1.texture = some t ∧
      (s._prepareImage g img r).2.log = g.log ++
        (match s.boundsBuffer with
          | none => [GLOp.createBuffer g.nextId]
          | some _ => []) ++
        [ GLOp.createTexture t
        , GLOp.bindTexture t
        , GLOp.texParameteri GL_TEXTURE_WRAP_S GL_CLAMP_TO_EDGE
        , GLOp.texParameteri GL_TEXTURE_WRAP_T GL_CLAMP_TO_EDGE
        , GLOp.texParameteri GL_TEXTURE_MIN_FILTER GL_LINEAR
        , GLOp.texParameteri GL_TEXTURE_MAG_FILTER GL_LINEAR
        , GLOp.texImage2D ] := by
  rcases hb : s.boundsBuffer with _ | b <;> by_cases hv : s.boundsVAO <;>
    simp [ImageSource._prepareImage, ensureBuffer, ensureVAO, ensureTexture,
      updateTiles, hb, hv, h]

theorem prepareImage_recreates_buffer (s : ImageSource) (g : GLState)
    (img : RasterKind) (r : Bool) (h : s.boundsBuffer = none) :
    (s._prepareImage g img r).1.boundsBuffer = some g.nextId ∧
    bufferCreations (s._prepareImage g img r).2.log = bufferCreations g.log + 1 := by
  by_cases hv : s.boundsVAO <;> by_cases ht : s.textureLoaded <;> cases r <;>
    cases hs : img.isStreaming <;>
    simp [ImageSource._prepareImage, ensureBuffer, ensureVAO, ensureTexture,
      updateTiles, h, hv, ht, hs, bufferCreations]

theorem natLog_18000 : Nat.log 2 18000 = 14 :=
  Nat.log_eq_of_pow_le_of_lt_pow (by norm_num) (by norm_num)

theorem cornersZ0_claim : cornersZ0List modelProj claimCorners =
    [ { column := 5173 / 18000, row := 847 / 6000, zoom := 0 }
    , { column := 2587 / 9000, row := 847 / 6000, zoom := 0 }
    , { column := 2587 / 9000, row := 5083 / 36000, zoom := 0 }
    , { column := 5173 / 18000, row := 5083 / 36000, zoom := 0 } ] := by
  simp only [cornersZ0List, cornerZ0, modelProj, claimCorners]
  norm_num

theorem modelCenter_claim : modelCenter (cornersZ0List modelProj claimCorners) =
    { column := 1765888 / 375, row := 520448 / 225, zoom := 14 } := by
  rw [cornersZ0_claim]
  simp only [modelCenter, List.foldl_cons, List.foldl_nil]
  norm_num [min_def, max_def]
  rw [natLog_18000]
  simp only [Coordinate.zoomTo, pow2]
  norm_num [show Int.toNat 14 = 14 from rfl]

theorem flooredCenter_claim : flooredCenter modelProj modelCenter claimCorners =
    { column := 4709, row := 2313, zoom := 14 } := by
  simp only [flooredCenter, anchorTileCoord, modelCenter_claim]
  norm_num

theorem tilePos_claim_c2 :
    tilePos modelProj modelCenter claimCorners claimCorners.c2 = (4012, 2702) := by
  simp only [tilePos, flooredCenter_claim]
  simp only [cornerZ0, modelProj, claimCorners, Coordinate.zoomTo, pow2, jsRound, EXTENT]
  norm_num [show Int.toNat 14 = 14 from rfl]

theorem tilePos_claim_c3 :
    tilePos modelProj modelCenter claimCorners claimCorners.c3 = (-3444, 2702) := by
  simp only [tilePos, flooredCenter_claim]
  simp only [cornerZ0, modelProj, claimCorners, Coordinate.zoomTo, pow2, jsRound, EXTENT]
  norm_num [show Int.toNat 14 = 14 from rfl]

/-- C2: after every `setCoordinates` call, `minzoom` and `maxzoom` both equal
the selected anchor tile's zoom, and this equality persists through any
subsequent `_prepareImage`, `prepare` or `loadTile` call (none of which
touches the zoom bounds or the anchor) until the next `setCoordinates`. -/
theorem claim_C2_zoom_range_pinned (proj : ℚ × ℚ → ℚ × ℚ)
    (center : List Coordinate → Coordinate) (s : ImageSource) (g : GLState)
    (k : Corners) :
    ((s.setCoordinates proj center g k).1.minzoom = (anchorTileCoord proj center k).z ∧
     (s.setCoordinates proj center g k).1.maxzoom = (anchorTileCoord proj center k).z ∧
     (s.setCoordinates proj center g k).1.coord = some (anchorTileCoord proj center k)) ∧
    (∀ (s' : ImageSource) (g' : GLState) (img : RasterKind) (r : Bool),
      (s'._prepareImage g' img r).1.minzoom = s'.minzoom ∧
      (s'._prepareImage g' img r).1.maxzoom = s'.maxzoom ∧
      (s'._prepareImage g' img r).1.coord = s'.coord) ∧
    (∀ (s' : ImageSource) (g' : GLState),
      (s'.prepare g').1.minzoom = s'.minzoom ∧
      (s'.prepare g').1.maxzoom = s'.maxzoom ∧
      (s'.prepare g').1.coord = s'.coord) ∧
    (∀ (s' : ImageSource) (t : Tile),
      (s'.loadTile t).1.minzoom = s'.minzoom ∧
      (s'.loadTile t).1.maxzoom = s'.maxzoom ∧
      (s'.loadTile t).1.coord = s'.coord) :=
  ⟨⟨rfl, rfl, rfl⟩,
   fun s' g' img r => prepareImage_geom s' g' img r,
   fun s' g' => prepare_geom s' g',
   fun s' t => loadTile_source_fields s' t⟩

/-- C3: the quad built by `setCoordinates` has exactly four vertices in the
fixed diagonal-swap order — corner 0 at texture coordinate (0,0), corner 1 at
(EXTENT,0), corner 3 at (0,EXTENT), corner 2 at (EXTENT,EXTENT) — and, for
the spec's concrete corner set, vertex 2 derives from corner index 3 (whose
position differs from corner index 2's). -/
theorem claim_C3_quad_vertex_order (proj : ℚ × ℚ → ℚ × ℚ)
    (center : List Coordinate → Coordinate) (s : ImageSource) (g : GLState)
    (k : Corners) :
    ((s.setCoordinates proj center g k).1.boundsArray = some
      [ { x := (tilePos proj center k k.c0).1, y := (tilePos proj center k k.c0).2
        , tx := 0, ty := 0 }
      , { x := (tilePos proj center k k.c1).1, y := (tilePos proj center k k.c1).2
        , tx := EXTENT, ty := 0 }
      , { x := (tilePos proj center k k.c3).1, y := (tilePos proj center k k.c3).2
        , tx := 0, ty := EXTENT }
      , { x := (tilePos proj center k k.c2).1, y := (tilePos proj center k k.c2).2
        , tx := EXTENT, ty := EXTENT } ]) ∧
    (quadOf modelProj modelCenter claimCorners)[2]? = some
      { x := (tilePos modelProj modelCenter claimCorners claimCorners.c3).1
      , y := (tilePos modelProj modelCenter claimCorners claimCorners.c3).2
      , tx := 0, ty := EXTENT } ∧
    tilePos modelProj modelCenter claimCorners claimCorners.c3 ≠
      tilePos modelProj modelCenter claimCorners claimCorners.c2 := by
  refine ⟨rfl, rfl, ?_⟩
  rw [tilePos_claim_c2, tilePos_claim_c3]
  decide

/-- C4: `setCoordinates` computes the anchor by flooring the best-fit
center's fractional column and row (zoom used verbatim), and each vertex
position by re-projecting the zoom-0 corner to the anchor zoom, subtracting
the anchor's integer column/row, scaling by `EXTENT`, and rounding to the
nearest integer (half-up, not truncation). -/
theorem claim_C4_vertex_arithmetic (proj : ℚ × ℚ → ℚ × ℚ)
    (center : List Coordinate → Coordinate) (s : ImageSource) (g : GLState)
    (k : Corners) :
    (s.setCoordinates proj center g k).1.coord =
      some (specSelectAnchor proj center k) ∧
    (s.setCoordinates proj center g k).1.boundsArray = some
      [ { x := (specVertexPos proj center k k.c0).1
        , y := (specVertexPos proj center k k.c0).2, tx := 0, ty := 0 }
      , { x := (specVertexPos proj center k k.c1).1
        , y := (specVertexPos proj center k k.c1).2, tx := EXTENT, ty := 0 }
      , { x := (specVertexPos proj center k k.c3).1
        , y := (specVertexPos proj center k k.c3).2, tx := 0, ty := EXTENT }
      , { x := (specVertexPos proj center k k.c2).1
        , y := (specVertexPos proj center k k.c2).2, tx := EXTENT, ty := EXTENT } ] := by
  refine ⟨rfl, ?_⟩
  simp only [ImageSource.setCoordinates, quadOf, tilePos, specVertexPos,
    specSelectAnchor, anchorTileCoord, flooredCenter, cornerZ0,
    Coordinate.zoomTo, jsRound, roundNearest, sub_zero]

/-- C9: `setCoordinates` is deterministic and idempotent with respect to
geometry — with a fixed projection and center utility, a second call with the
identical corner set reproduces bit-identical anchor and quad geometry. -/
theorem claim_C9_idempotent_geometry (proj : ℚ × ℚ → ℚ × ℚ)
    (center : List Coordinate → Coordinate) (s : ImageSource) (g : GLState)
    (k : Corners) :
    ((s.setCoordinates proj center g k).1.setCoordinates proj center
        (s.setCoordinates proj center g k).2 k).1.boundsArray =
      (s.setCoordinates proj center g k).1.boundsArray ∧
    ((s.setCoordinates proj center g k).1.setCoordinates proj center
        (s.setCoordinates proj center g k).2 k).1.coord =
      (s.setCoordinates proj center g k).1.coord ∧
    ((s.setCoordinates proj center g k).1.setCoordinates proj center
        (s.setCoordinates proj center g k).2 k).1.centerCoord =
      (s.setCoordinates proj center g k).1.centerCoord :=
  ⟨rfl, rfl, rfl⟩

/-- C6: when a bounds buffer exists, `setCoordinates` destroys it and clears
the owning reference before returning (so the next `_prepareImage` recreates
it), while the texture handle and the `textureLoaded` flag are left
untouched. -/
theorem claim_C6_buffer_invalidation (proj : ℚ × ℚ → ℚ × ℚ)
    (center : List Coordinate → Coordinate) (s : ImageSource) (g : GLState)
    (k : Corners) (b : Nat) (h : s.boundsBuffer = some b) :
    (s.setCoordinates proj center g k).1.boundsBuffer = none ∧
    (s.setCoordinates proj center g k).2.log = g.log ++ [GLOp.destroyBuffer b] ∧
    (s.setCoordinates proj center g k).1.texture = s.texture ∧
    (s.setCoordinates proj center g k).1.textureLoaded = s.textureLoaded ∧
    (∀ (g' : GLState) (img : RasterKind) (r : Bool),
      ((s.setCoordinates proj center g k).1._prepareImage g' img r).1.boundsBuffer =
        some g'.nextId ∧
      bufferCreations
          ((s.setCoordinates proj center g k).1._prepareImage g' img r).2.log =
        bufferCreations g'.log + 1) := by
  refine ⟨rfl, ?_, rfl, rfl, ?_⟩
  · simp [ImageSource.setCoordinates, h]
  · intro g' img r
    exact prepareImage_recreates_buffer _ g' img r rfl

/-- Witness for C6 at a concrete source owning buffer 7. -/
theorem claim_C6_witness :
    (exWithBuffer.setCoordinates modelProj modelCenter g0 claimCorners).1.boundsBuffer
        = none ∧
    (exWithBuffer.setCoordinates modelProj modelCenter g0 claimCorners).2.log =
      g0.log ++ [GLOp.destroyBuffer 7] ∧
    (exWithBuffer.setCoordinates modelProj modelCenter g0 claimCorners).1.texture =
      exWithBuffer.texture ∧
    (exWithBuffer.setCoordinates modelProj modelCenter g0 claimCorners).1.textureLoaded =
      exWithBuffer.textureLoaded ∧
    (∀ (g' : GLState) (img : RasterKind) (r : Bool),
      ((exWithBuffer.setCoordinates modelProj modelCenter g0
          claimCorners).1._prepareImage g' img r).1.boundsBuffer = some g'.nextId ∧
      bufferCreations
          ((exWithBuffer.setCoordinates modelProj modelCenter g0
            claimCorners).1._prepareImage g' img r).2.log =
        bufferCreations g'.log + 1) :=
  claim_C6_buffer_invalidation modelProj modelCenter exWithBuffer g0 claimCorners 7 rfl

/-- C7: `loadTile` reports success (a `null` error) in both branches; a
request matching the anchor's `z/x/y` is registered in the claim table under
its wrap index with its buckets cleared, any other request only has its state
set to `errored`; in particular with anchor (5,10,12), requesting (5,10,12)
registers and (5,10,13) errors, both successfully. -/
theorem claim_C7_load_tile_protocol (s : ImageSource) (tile : Tile) :
    ((s.loadTile tile).2.2 = none) ∧
    (∀ c : TileCoord, s.coord = some c → c.toStr = tile.coord.toStr →
      (s.loadTile tile).1.tiles =
        insertTile s.tiles tile.coord.w { tile with buckets := [] } ∧
      (s.loadTile tile).2.1 = { tile with buckets := [] }) ∧
    (∀ c : TileCoord, s.coord = some c → ¬ c.toStr = tile.coord.toStr →
      (s.loadTile tile).1 = s ∧
      (s.loadTile tile).2.1 = { tile with state := "errored" }) ∧
    ((exAnchored.loadTile tileA).1.tiles = [(0, { tileA with buckets := [] })] ∧
     (exAnchored.loadTile tileA).2.2 = none ∧
     (exAnchored.loadTile tileB).2.1.state = "errored" ∧
     (exAnchored.loadTile tileB).1 = exAnchored ∧
     (exAnchored.loadTile tileB).2.2 = none) := by
  refine ⟨?_, ?_, ?_, by decide, by decide, by decide, ?_, by decide⟩
  · rcases hc : s.coord with _ | c
    · simp [ImageSource.loadTile, hc]
    · by_cases he : c.toStr = tile.coord.toStr <;> simp [ImageSource.loadTile, hc, he]
  · intro c hc he
    simp [ImageSource.loadTile, hc, he]
  · intro c hc he
    simp [ImageSource.loadTile, hc, he]
  · have : ¬ (TileCoord.toStr { z := 5, x := 10, y := 12, w := 0 }) =
        tileB.coord.toStr := by decide
    simp [ImageSource.loadTile, exAnchored, exBase, ImageSource.make, this]

/-- C8: `prepare` with an empty claim table or an unloaded raster returns the
source and the GL context unchanged — no texture or buffer operation, no tile
mutation. -/
theorem claim_C8_prepare_precondition_skip (s : ImageSource) (g : GLState)
    (h : s.tiles = [] ∨ s.image = none) :
    s.prepare g = (s, g) := by
  rcases h with h | h
  · simp [ImageSource.prepare, h]
  · by_cases hl : s.tiles.length = 0 <;> simp [ImageSource.prepare, h, hl]

/-- Witness for C8: a freshly constructed source (no claimed tiles, raster
not loaded) and a fresh GL context. -/
theorem claim_C8_witness : exBase.prepare g0 = (exBase, g0) :=
  claim_C8_prepare_precondition_skip exBase g0 (Or.inl rfl)

/-- C5: with a loaded raster and a claimed tile, the first `prepare` creates
the texture exactly once — clamp-to-edge wrap, linear filtering, one full
upload — and no further `prepare` ever creates another; past the first
upload, a full re-upload happens exactly when the resize flag is set, a
partial in-place update exactly when the raster is a streaming kind, and a
static image's content is never touched again. -/
theorem claim_C5_texture_lifecycle (s : ImageSource) (g : GLState)
    (k : RasterKind) (h0 : s.textureLoaded = false) (himg : s.image = some k)
    (ht : ¬ s.tiles = []) :
    (s.prepare g).1.textureLoaded = true ∧
    (∃ t : Nat, (s.prepare g).1.texture = some t ∧
      (s.prepare g).2.log = g.log ++
        (match s.boundsBuffer with
          | none => [GLOp.createBuffer g.nextId]
          | some _ => []) ++
        [ GLOp.createTexture t
        , GLOp.bindTexture t
        , GLOp.texParameteri GL_TEXTURE_WRAP_S GL_CLAMP_TO_EDGE
        , GLOp.texParameteri GL_TEXTURE_WRAP_T GL_CLAMP_TO_EDGE
        , GLOp.texParameteri GL_TEXTURE_MIN_FILTER GL_LINEAR
        , GLOp.texParameteri GL_TEXTURE_MAG_FILTER GL_LINEAR
        , GLOp.texImage2D ]) ∧
    texCreations (s.prepare g).2.log = texCreations g.log + 1 ∧
    (∀ n : ℕ, texCreations (prepareN n (s.prepare g)).2.log =
      texCreations (s.prepare g).2.log) ∧
    (∀ (s' : ImageSource) (g' : GLState) (img : RasterKind) (r : Bool),
      s'.textureLoaded = true →
      texCreations (s'._prepareImage g' img r).2.log = texCreations g'.log ∧
      fullUploads (s'._prepareImage g' img r).2.log =
        fullUploads g'.log + (if r then 1 else 0) ∧
      partialUploads (s'._prepareImage g' img r).2.log =
        partialUploads g'.log + (if r = false ∧ img.isStreaming = true then 1 else 0)) := by
  have hlen : ¬ s.tiles.length = 0 := by
    simpa [List.length_eq_zero] using ht
  have hpre : s.prepare g = s._prepareImage g k false := by
    simp [ImageSource.prepare, hlen, himg]
  obtain ⟨htl, t, htex, hlog⟩ := prepareImage_first_log s g k false h0
  refine ⟨by rw [hpre]; exact htl, ⟨t, by rw [hpre]; exact htex, by rw [hpre]; exact hlog⟩,
    ?_, ?_, ?_⟩
  · rw [hpre, hlog]
    rcases hb : s.boundsBuffer with _ | b <;>
      simp [hb, texCreations_append, texCreations]
  · intro n
    have hload : (s.prepare g).1.textureLoaded = true := by rw [hpre]; exact htl
    have h2 := prepareN_counts_loaded n (s.prepare g).1 (s.prepare g).2 hload
    simpa using h2.1
  · intro s' g' img r hl
    exact ⟨(prepareImage_counts_loaded s' g' img r hl).1,
      (prepareImage_counts_loaded s' g' img r hl).2.1,
      (prepareImage_counts_loaded s' g' img r hl).2.2.1⟩

/-- Witness for C5: the ready source (static image raster, one claimed tile,
no texture yet) in a fresh GL context. -/
theorem claim_C5_witness :
    (exPrepared.prepare g0).1.textureLoaded = true ∧
    (∃ t : Nat, (exPrepared.prepare g0).1.texture = some t ∧
      (exPrepared.prepare g0).2.log = g0.log ++
        (match exPrepared.boundsBuffer with
          | none => [GLOp.createBuffer g0.nextId]
          | some _ => []) ++
        [ GLOp.createTexture t
        , GLOp.bindTexture t
        , GLOp.texParameteri GL_TEXTURE_WRAP_S GL_CLAMP_TO_EDGE
        , GLOp.texParameteri GL_TEXTURE_WRAP_T GL_CLAMP_TO_EDGE
        , GLOp.texParameteri GL_TEXTURE_MIN_FILTER GL_LINEAR
        , GLOp.texParameteri GL_TEXTURE_MAG_FILTER GL_LINEAR
        , GLOp.texImage2D ]) ∧
    texCreations (exPrepared.prepare g0).2.log = texCreations g0.log + 1 ∧
    (∀ n : ℕ, texCreations (prepareN n (exPrepared.prepare g0)).2.log =
      texCreations (exPrepared.prepare g0).2.log) ∧
    (∀ (s' : ImageSource) (g' : GLState) (img : RasterKind) (r : Bool),
      s'.textureLoaded = true →
      texCreations (s'._prepareImage g' img r).2.log = texCreations g'.log ∧
      fullUploads (s'._prepareImage g' img r).2.log =
        fullUploads g'.log + (if r then 1 else 0) ∧
      partialUploads (s'._prepareImage g' img r).2.log =
        partialUploads g'.log + (if r = false ∧ img.isStreaming = true then 1 else 0)) :=
  claim_C5_texture_lifecycle exPrepared g0 RasterKind.htmlImage rfl rfl (by decide)

/-- C10: a matching `loadTile` leaves the claimed tile's `state` and
`texture` untouched (it is not marked `loaded` at claim time); a
`_prepareImage` pass marks each claimed non-`loaded` tile `loaded` and hands
it the current texture, and leaves tiles already `loaded` unchanged. -/
theorem claim_C10_deferred_tile_loading (s : ImageSource) (tile : Tile) :
    (∀ c : TileCoord, s.coord = some c → c.toStr = tile.coord.toStr →
      (s.loadTile tile).2.1.state = tile.state ∧
      (s.loadTile tile).2.1.texture = tile.texture) ∧
    (∀ (s' : ImageSource) (g : GLState) (img : RasterKind) (r : Bool)
        (w : ℤ) (t : Tile), (w, t) ∈ s'.tiles →
      (¬ t.state = "loaded" →
        (w,
          { t with
              state := "loaded"
              texture := (s'._prepareImage g img r).1.texture }) ∈
          (s'._prepareImage g img r).1.tiles) ∧
      (t.state = "loaded" → (w, t) ∈ (s'._prepareImage g img r).1.tiles)) := by
  constructor
  · intro c hc he
    simp [ImageSource.loadTile, hc, he]
  · intro s' g img r w t hmem
    have hmap := prepareImage_tiles_map s' g img r
    constructor
    · intro hst
      rw [hmap]
      refine List.mem_map.mpr ⟨(w, t), hmem, ?_⟩
      simp [hst]
    · intro hst
      rw [hmap]
      refine List.mem_map.mpr ⟨(w, t), hmem, ?_⟩
      simp [hst]

/-- C1 (failing part and surviving part): `serialize` emits the url under the
key `urls` — not `url` as the spec's persisted form states — so a source
constructed from the serialized output has no url (`options.url` is absent),
while the corner coordinates do survive and reproduce an equivalent anchor
and quad geometry through `setCoordinates`. -/
theorem claim_C1_serialize_url_key_bug :
    exSet.options.url = some "https://example.com/image.png" ∧
    lookupKey exSet.serialize "url" = none ∧
    lookupKey exSet.serialize "urls" =
      some (JSValue.str "https://example.com/image.png") ∧
    exCopy.options.url = none ∧
    exCopy.coordinates = exSet.coordinates ∧
    (exCopy.setCoordinates modelProj modelCenter g0 exCopy.coordinates).1.coord =
      exSet.coord ∧
    (exCopy.setCoordinates modelProj modelCenter g0 exCopy.coordinates).1.boundsArray =
      exSet.boundsArray := by
  have hcc : exCopy.coordinates = claimCorners := by
    simp [exCopy, ImageSource.make, optionsOfSerialized, lookupKey,
      ImageSource.serialize, exSet, ImageSource.setCoordinates, exBase, exOptions,
      List.find?]
  refine ⟨rfl, ?_, ?_, ?_, ?_, ?_, ?_⟩
  · simp [lookupKey, ImageSource.serialize, List.find?]
  · simp [lookupKey, ImageSource.serialize, List.find?, exSet,
      ImageSource.setCoordinates, exBase, ImageSource.make, exOptions]
  · simp [exCopy, ImageSource.make, optionsOfSerialized, lookupKey,
      ImageSource.serialize, List.find?]
  · rw [hcc]; rfl
  · show some (anchorTileCoord modelProj modelCenter exCopy.coordinates) = _
    rw [hcc]; rfl
  · show some (quadOf modelProj modelCenter exCopy.coordinates) = _
    rw [hcc]; rfl

end ImageSourceSpec
